import Mathlib

/-!
Verification of the palette shadow-texture builder
(`src/create_palette_texture.py`).

The script holds two compiled-in tables — a 32-entry RGB palette and a
32×8 shadow-index table — fills a 32×8 RGB image with
`palette_colors[shadow_levels[p][s]]` at column `p`, row `s`, and saves it
to `assets/palette_shadow_lookup.png`.

Shallow embedding notes:
* An RGB triple is `Nat × Nat × Nat` (Python ints; channels are 8-bit
  literals in the data).
* `shadow_levels` is a Python dict with integer keys `0..31` listed in
  ascending order; it is embedded as a `List (List Int)` whose position is
  the key.  Dict lookup of a missing key (KeyError) and list indexing out
  of range (IndexError) are both embedded as `Option.none`; entries are
  `Int` so that out-of-range table variants, including negative entries,
  can be expressed.
* `pyGet` embeds Python list indexing `l[i]`, including the silent
  wrap-around of negative indices `-len ≤ i < 0` to `l[len + i]` and the
  IndexError (`none`) outside `[-len, len)`.
* The PIL image is embedded as a total function `Nat × Nat → RGB`
  initialised to black (`Image.new 'RGB'` zero-fills); `putpixel` is a
  pointwise functional update.  The fill loop is a monadic fold over the
  row-major enumeration of the 32×8 domain, failing (`none`) as soon as a
  lookup raises.
* `img.save(output_path)` happens after the loop, so the saved file is
  embedded as `Option SavedImage`: `some` iff the whole build succeeded.
-/

namespace PaletteTexture

/-- An RGB colour triple (r, g, b). -/
abbrev RGB := Nat × Nat × Nat

/-- The Picotron 32-colour palette, `palette_colors` in the source. -/
def palette_colors : List RGB := [
  (0x00, 0x00, 0x00),
  (0x1d, 0x2b, 0x53),
  (0x7e, 0x25, 0x53),
  (0x00, 0x87, 0x51),
  (0xab, 0x52, 0x36),
  (0x5f, 0x57, 0x4f),
  (0xc2, 0xc3, 0xc7),
  (0xff, 0xf1, 0xe8),
  (0xff, 0x00, 0x4d),
  (0xff, 0xa3, 0x00),
  (0xff, 0xec, 0x27),
  (0x00, 0xe4, 0x36),
  (0x29, 0xad, 0xff),
  (0x83, 0x76, 0x9c),
  (0xff, 0x77, 0xa8),
  (0xff, 0xcc, 0xaa),
  (0x1c, 0x5e, 0xac),
  (0x00, 0xa5, 0xa1),
  (0x75, 0x4e, 0x97),
  (0x12, 0x53, 0x59),
  (0x74, 0x2f, 0x29),
  (0x49, 0x2d, 0x38),
  (0xa2, 0x88, 0x79),
  (0xff, 0xac, 0xc5),
  (0xc3, 0x00, 0x4c),
  (0xeb, 0x6b, 0x00),
  (0x90, 0xec, 0x42),
  (0x00, 0xb2, 0x51),
  (0x64, 0xdf, 0xf6),
  (0xbd, 0x9a, 0xdf),
  (0xe4, 0x0d, 0xab),
  (0xff, 0x85, 0x6d)]

/-- The shadow-level table, `shadow_levels` in the source: a dict keyed by
palette index 0..31 (embedded positionally), each row listing the 8
substitute palette indices for shadow levels 0..7. -/
def shadow_levels : List (List Int) := [
  [0, 0, 0, 0, 0, 0, 0, 0],
  [1, 1, 1, 0, 0, 0, 0, 0],
  [2, 2, 21, 21, 1, 0, 0, 0],
  [3, 3, 19, 19, 1, 1, 0, 0],
  [4, 4, 20, 20, 21, 1, 0, 0],
  [5, 5, 21, 21, 1, 0, 0, 0],
  [6, 13, 13, 5, 5, 21, 1, 0],
  [7, 6, 6, 13, 5, 5, 1, 0],
  [8, 8, 24, 24, 2, 21, 1, 0],
  [9, 9, 25, 25, 4, 20, 21, 0],
  [10, 10, 9, 25, 4, 20, 1, 0],
  [11, 11, 27, 27, 3, 19, 1, 0],
  [12, 12, 16, 16, 1, 1, 0, 0],
  [13, 13, 5, 5, 21, 1, 0, 0],
  [14, 14, 8, 8, 24, 2, 1, 0],
  [15, 15, 4, 4, 20, 21, 1, 0],
  [16, 16, 1, 1, 0, 0, 0, 0],
  [17, 17, 19, 19, 1, 1, 0, 0],
  [18, 18, 2, 2, 21, 1, 0, 0],
  [19, 19, 1, 1, 0, 0, 0, 0],
  [20, 20, 21, 21, 1, 0, 0, 0],
  [21, 21, 1, 0, 0, 0, 0, 0],
  [22, 22, 5, 5, 21, 1, 0, 0],
  [23, 23, 14, 14, 8, 24, 2, 0],
  [24, 24, 2, 2, 21, 1, 0, 0],
  [25, 25, 4, 4, 20, 21, 1, 0],
  [26, 26, 11, 11, 27, 3, 19, 0],
  [27, 27, 3, 3, 19, 1, 0, 0],
  [28, 28, 12, 12, 16, 1, 0, 0],
  [29, 29, 13, 13, 5, 21, 1, 0],
  [30, 30, 24, 24, 2, 21, 1, 0],
  [31, 31, 8, 8, 24, 2, 1, 0]]

/-- Python list indexing `l[i]`: a non-negative index is looked up
directly, a negative index `-len ≤ i < 0` silently wraps to `l[len + i]`,
and anything else raises IndexError (embedded as `none`). -/
def pyGet {α : Type} (l : List α) (i : Int) : Option α :=
  if 0 ≤ i then l.get? i.toNat
  else if 0 ≤ i + (l.length : Int) then l.get? (i + (l.length : Int)).toNat
  else none

/-- One iteration body of the fill loop, lookups only: resolve
`shadow_idx = shadow_levels[palette_idx][shadow_level]` and then
`rgb = palette_colors[shadow_idx]`; any failing lookup propagates. -/
def pixelVal (pal : List RGB) (tbl : List (List Int)) (ps : Nat × Nat) :
    Option RGB := do
  let row ← tbl.get? ps.1
  let idx ← row.get? ps.2
  pyGet pal idx

/-- The image buffer: colour at each (x, y) coordinate. -/
abbrev Img := Nat × Nat → RGB

/-- `Image.new('RGB', (width, height))` zero-fills: every pixel black. -/
def initImg : Img := fun _ => (0, 0, 0)

/-- One full iteration of the fill loop: compute the pixel value for
`ps = (palette_idx, shadow_level)` and `putpixel` it into the image. -/
def fillPixel (pal : List RGB) (tbl : List (List Int)) (img : Img)
    (ps : Nat × Nat) : Option Img :=
  (pixelVal pal tbl ps).map fun rgb => fun k => if k = ps then rgb else img k

/-- The fill loop run over an explicit iteration order `l`. -/
def fillLoop (pal : List RGB) (tbl : List (List Int))
    (l : List (Nat × Nat)) (img : Img) : Option Img :=
  l.foldlM (fillPixel pal tbl) img

/-- The iteration domain of the source's nested loop:
`for palette_idx in range(32): for shadow_level in range(8)`. -/
def fillDomain : List (Nat × Nat) :=
  (List.range 32).flatMap fun p => (List.range 8).map fun s => (p, s)

/-- The build pass: the fill loop over the source's iteration order,
starting from the fresh black image. -/
def buildTexture (pal : List RGB) (tbl : List (List Int)) : Option Img :=
  fillLoop pal tbl fillDomain initImg

/-- `output_path` in the source. -/
def output_path : String := "assets/palette_shadow_lookup.png"

/-- What `img.save(output_path)` persists: the path and the image together
with its creation parameters (`Image.new('RGB', (32, 8))`). -/
structure SavedImage where
  path : String
  width : Nat
  height : Nat
  mode : String
  pixel : Img

/-- The whole script: build the texture, then save it.  The save runs only
after the fill loop finished, so an exception during the build leaves no
output file (`none`). -/
def scriptRun (pal : List RGB) (tbl : List (List Int)) : Option SavedImage :=
  (buildTexture pal tbl).map fun g => ⟨output_path, 32, 8, "RGB", g⟩

/-- The value the loop writes at `ps` when its lookups succeed. -/
def pval (pal : List RGB) (tbl : List (List Int)) (ps : Nat × Nat) : RGB :=
  (pixelVal pal tbl ps).getD (0, 0, 0)

/-- The reference shadow table with the single entry at row 0, level 0
set to 32 (one entry out of range high). -/
def shadow_levels_set32 : List (List Int) :=
  shadow_levels.set 0 [32, 0, 0, 0, 0, 0, 0, 0]

/-- The reference shadow table with the single entry at row 0, level 0
set to -1 (one entry out of range low). -/
def shadow_levels_neg1 : List (List Int) :=
  shadow_levels.set 0 [-1, 0, 0, 0, 0, 0, 0, 0]

/-! ### Helper lemmas about the fill loop -/

lemma fillLoop_nil (pal : List RGB) (tbl : List (List Int)) (img : Img) :
    fillLoop pal tbl [] img = some img := rfl

lemma fillLoop_cons (pal : List RGB) (tbl : List (List Int)) (img : Img)
    (a : Nat × Nat) (l : List (Nat × Nat)) :
    fillLoop pal tbl (a :: l) img =
      (fillPixel pal tbl img a).bind fun i => fillLoop pal tbl l i := by
  simp [fillLoop, List.foldlM_cons]

/-- When every lookup in the iteration list succeeds, the fill loop
succeeds and the resulting image holds `pval` on the visited coordinates
and the initial image elsewhere. -/
lemma fillLoop_ok (pal : List RGB) (tbl : List (List Int)) :
    ∀ (l : List (Nat × Nat)) (img : Img),
      (∀ ps ∈ l, (pixelVal pal tbl ps).isSome) →
      fillLoop pal tbl l img =
        some (fun k => if k ∈ l then pval pal tbl k else img k) := by
  intro l
  induction l with
  | nil =>
    intro img _
    rw [fillLoop_nil]
    simp
  | cons a rest ih =>
    intro img h
    obtain ⟨rgb, hrgb⟩ :=
      Option.isSome_iff_exists.mp (h a (List.mem_cons_self a rest))
    have hstep : fillPixel pal tbl img a =
        some (fun k => if k = a then rgb else img k) := by
      simp [fillPixel, hrgb]
    rw [fillLoop_cons, hstep, Option.some_bind,
      ih _ (fun ps hps => h ps (List.mem_cons_of_mem a hps))]
    congr 1
    funext k
    by_cases hk : k ∈ rest
    · simp [hk]
    · by_cases hka : k = a
      · subst hka
        simp [hk, pval, hrgb]
      · simp [hk, hka]

/-- If some lookup in the iteration list fails, the whole fill loop
fails. -/
lemma fillLoop_none (pal : List RGB) (tbl : List (List Int)) :
    ∀ (l : List (Nat × Nat)) (img : Img) (ps : Nat × Nat), ps ∈ l →
      pixelVal pal tbl ps = none → fillLoop pal tbl l img = none := by
  intro l
  induction l with
  | nil =>
    intro img ps hmem
    exact absurd hmem (List.not_mem_nil ps)
  | cons a rest ih =>
    intro img ps hmem hnone
    rw [fillLoop_cons]
    rcases List.mem_cons.mp hmem with h | h
    · subst h
      simp [fillPixel, hnone]
    · cases hstep : fillPixel pal tbl img a with
      | none => rfl
      | some img1 =>
        rw [Option.some_bind]
        exact ih img1 ps h hnone

/-- Membership in the loop domain is exactly the 32×8 bound. -/
lemma mem_fillDomain (ps : Nat × Nat) :
    ps ∈ fillDomain ↔ ps.1 < 32 ∧ ps.2 < 8 := by
  obtain ⟨p, s⟩ := ps
  simp only [fillDomain, List.mem_flatMap, List.mem_map, List.mem_range,
    Prod.mk.injEq]
  constructor
  · rintro ⟨a, ha, b, hb, hap, hbs⟩
    subst hap; subst hbs
    exact ⟨ha, hb⟩
  · rintro ⟨hp, hs⟩
    exact ⟨p, hp, s, hs, rfl, rfl⟩

set_option maxRecDepth 8192 in
/-- On the reference data every lookup succeeds. -/
lemma ok_ref : ∀ ps ∈ fillDomain,
    (pixelVal palette_colors shadow_levels ps).isSome := by decide

/-- The reference build in closed form. -/
lemma build_ref_eq : buildTexture palette_colors shadow_levels =
    some (fun k => if k ∈ fillDomain
      then pval palette_colors shadow_levels k else initImg k) :=
  fillLoop_ok _ _ _ _ ok_ref

set_option maxRecDepth 8192 in
/-- Pointwise value of the reference build on the domain, in the
`palette[shadowTable[p][s]]` form. -/
lemma pval_ref : ∀ p ∈ List.range 32, ∀ s ∈ List.range 8,
    pval palette_colors shadow_levels (p, s) =
      palette_colors.getD ((shadow_levels.getD p []).getD s 0).toNat
        (0, 0, 0) := by decide

/-- The reference image evaluated at an in-range coordinate. -/
lemma pixel_ref (p : Fin 32) (s : Fin 8) :
    (fun k => if k ∈ fillDomain
        then pval palette_colors shadow_levels k else initImg k)
      (p.val, s.val) =
      palette_colors.getD
        ((shadow_levels.getD p.val []).getD s.val 0).toNat (0, 0, 0) := by
  have hmem : ((p.val, s.val) : Nat × Nat) ∈ fillDomain :=
    (mem_fillDomain _).mpr ⟨p.isLt, s.isLt⟩
  simp only [if_pos hmem]
  exact pval_ref p.val (List.mem_range.mpr p.isLt) s.val
    (List.mem_range.mpr s.isLt)

/-- Out-of-range palette lookups: an index at or above 32, or strictly
below -32, raises IndexError on the 32-entry palette. -/
lemma pyGet_palette_none (e : Int) (h : 32 ≤ e ∨ e < -32) :
    pyGet palette_colors e = none := by
  have hlen : palette_colors.length = 32 := rfl
  unfold pyGet
  rcases h with h | h
  · rw [if_pos (by omega)]
    exact List.get?_eq_none.mpr (by omega)
  · rw [if_neg (by omega), if_neg (by omega)]

/-! ### Claim theorems -/

/-- C1: for every palette index p in [0,32) and shadow level s in [0,8),
the build writes pixel (p, s) equal to `palette_colors[shadow_levels[p][s]]`
exactly, and the fill is total over the 32×8 domain (the build
succeeds, defining every pixel of the grid). -/
theorem C1_pixel_exact (p : Fin 32) (s : Fin 8) :
    ∃ g, buildTexture palette_colors shadow_levels = some g ∧
      g (p.val, s.val) =
        palette_colors.getD ((shadow_levels.getD p.val []).getD s.val 0).toNat
          (0, 0, 0) :=
  ⟨_, build_ref_eq, pixel_ref p s⟩

/-- Witness for C1 at p = 8, s = 2. -/
theorem C1_pixel_exact_witness :
    ∃ g, buildTexture palette_colors shadow_levels = some g ∧
      g (8, 2) =
        palette_colors.getD ((shadow_levels.getD 8 []).getD 2 0).toNat
          (0, 0, 0) :=
  C1_pixel_exact ⟨8, by decide⟩ ⟨2, by decide⟩

/-- C3: every reference shadow row starts with its own palette index
(`shadow_levels[p][0] = p`), so the pixel at (p, 0) is `palette_colors[p]`:
shadow level 0 reproduces the base colour unchanged. -/
theorem C3_level0_identity (p : Fin 32) :
    (shadow_levels.getD p.val []).getD 0 0 = (p.val : Int) ∧
    ∃ g, buildTexture palette_colors shadow_levels = some g ∧
      g (p.val, 0) = palette_colors.getD p.val (0, 0, 0) := by
  have h0 : ∀ q ∈ List.range 32,
      (shadow_levels.getD q []).getD 0 0 = (q : Int) ∧
      ((shadow_levels.getD q []).getD 0 0).toNat = q := by decide
  obtain ⟨h1, h2⟩ := h0 p.val (List.mem_range.mpr p.isLt)
  refine ⟨h1, _, build_ref_eq, ?_⟩
  exact (pixel_ref p ⟨0, by decide⟩).trans (by rw [h2])

/-- Witness for C3 at p = 5. -/
theorem C3_level0_identity_witness :
    (shadow_levels.getD 5 []).getD 0 0 = (5 : Int) ∧
    ∃ g, buildTexture palette_colors shadow_levels = some g ∧
      g (5, 0) = palette_colors.getD 5 (0, 0, 0) :=
  C3_level0_identity ⟨5, by decide⟩

/-- C4: with the reference table the pixel at (p, 7) is
`palette_colors[0]`, which is pure black (0,0,0), for every column p. -/
theorem C4_level7_black (p : Fin 32) :
    palette_colors.get? 0 = some (0, 0, 0) ∧
    ∃ g, buildTexture palette_colors shadow_levels = some g ∧
      g (p.val, 7) = (0, 0, 0) := by
  have h7 : ∀ q ∈ List.range 32,
      palette_colors.getD ((shadow_levels.getD q []).getD 7 0).toNat
        (0, 0, 0) = (0, 0, 0) := by decide
  refine ⟨rfl, _, build_ref_eq, ?_⟩
  exact (pixel_ref p ⟨7, by decide⟩).trans
    (h7 p.val (List.mem_range.mpr p.isLt))

/-- Witness for C4 at p = 9. -/
theorem C4_level7_black_witness :
    palette_colors.get? 0 = some (0, 0, 0) ∧
    ∃ g, buildTexture palette_colors shadow_levels = some g ∧
      g (9, 7) = (0, 0, 0) :=
  C4_level7_black ⟨9, by decide⟩

set_option maxRecDepth 8192 in
/-- C5: the shadow row of palette index 8 is [8, 8, 24, 24, 2, 21, 1, 0]
and output column 8, rows 0..7, holds exactly the listed colours. -/
theorem C5_column8 :
    shadow_levels.getD 8 [] = [8, 8, 24, 24, 2, 21, 1, 0] ∧
    ∃ g, buildTexture palette_colors shadow_levels = some g ∧
      (List.range 8).map (fun s => g (8, s)) =
        [(0xff, 0x00, 0x4d), (0xff, 0x00, 0x4d), (0xc3, 0x00, 0x4c),
         (0xc3, 0x00, 0x4c), (0x7e, 0x25, 0x53), (0x49, 0x2d, 0x38),
         (0x1d, 0x2b, 0x53), (0x00, 0x00, 0x00)] := by
  refine ⟨by decide, _, build_ref_eq, ?_⟩
  decide

/-- C6: the build-and-write is atomic: either the texture is fully built
and the file at `output_path` is written with it, or the build fails and
nothing is written (the save runs only after the whole fill loop). -/
theorem C6_atomic_save (pal : List RGB) (tbl : List (List Int)) :
    (∃ g, buildTexture pal tbl = some g ∧
      scriptRun pal tbl = some ⟨output_path, 32, 8, "RGB", g⟩) ∨
    (buildTexture pal tbl = none ∧ scriptRun pal tbl = none) := by
  cases hb : buildTexture pal tbl with
  | none => exact Or.inr ⟨rfl, by simp [scriptRun, hb]⟩
  | some g => exact Or.inl ⟨g, rfl, by simp [scriptRun, hb]⟩

/-- Witness for C6 at the compiled-in reference tables. -/
theorem C6_atomic_save_witness :
    (∃ g, buildTexture palette_colors shadow_levels = some g ∧
      scriptRun palette_colors shadow_levels =
        some ⟨output_path, 32, 8, "RGB", g⟩) ∨
    (buildTexture palette_colors shadow_levels = none ∧
      scriptRun palette_colors shadow_levels = none) :=
  C6_atomic_save palette_colors shadow_levels

/-- C7: the compiled-in tables satisfy the data-model invariants: 32
palette entries, 8-bit channels, palette[0] pure black; 32 shadow rows of
exactly 8 entries each, every entry a valid palette index in [0,32). -/
theorem C7_table_invariants :
    palette_colors.length = 32 ∧
    (∀ c ∈ palette_colors, c.1 < 256 ∧ c.2.1 < 256 ∧ c.2.2 < 256) ∧
    palette_colors.get? 0 = some (0, 0, 0) ∧
    shadow_levels.length = 32 ∧
    (∀ row ∈ shadow_levels, row.length = 8 ∧ ∀ e ∈ row, 0 ≤ e ∧ e < 32) := by
  decide

/-- C8: the script writes a single 32×8 RGB image (no alpha channel) to
the fixed relative path `assets/palette_shadow_lookup.png`, with column =
palette index and row = shadow level. -/
theorem C8_output_format :
    ∃ out, scriptRun palette_colors shadow_levels = some out ∧
      out.path = "assets/palette_shadow_lookup.png" ∧
      out.width = 32 ∧ out.height = 8 ∧ out.mode = "RGB" ∧
      ∀ (p : Fin 32) (s : Fin 8),
        out.pixel (p.val, s.val) =
          palette_colors.getD
            ((shadow_levels.getD p.val []).getD s.val 0).toNat (0, 0, 0) := by
  refine ⟨⟨output_path, 32, 8, "RGB",
    fun k => if k ∈ fillDomain
      then pval palette_colors shadow_levels k else initImg k⟩,
    ?_, rfl, rfl, rfl, rfl, ?_⟩
  · simp [scriptRun, build_ref_eq]
  · intro p s
    exact pixel_ref p s

/-- C9: the build is deterministic and order-independent: running the
fill loop over any two iteration orders of the 32×8 domain (any
permutations of it) yields the same result, for any palette and shadow
table. -/
theorem C9_order_invariance (pal : List RGB) (tbl : List (List Int))
    (l₁ l₂ : List (Nat × Nat)) (h₁ : l₁.Perm fillDomain)
    (h₂ : l₂.Perm fillDomain) :
    fillLoop pal tbl l₁ initImg = fillLoop pal tbl l₂ initImg := by
  have key : ∀ l : List (Nat × Nat), l.Perm fillDomain →
      fillLoop pal tbl l initImg = fillLoop pal tbl fillDomain initImg := by
    intro l hl
    by_cases hok : ∀ ps ∈ fillDomain, (pixelVal pal tbl ps).isSome
    · rw [fillLoop_ok pal tbl l initImg
          (fun ps hps => hok ps (hl.mem_iff.mp hps)),
        fillLoop_ok pal tbl fillDomain initImg hok]
      congr 1
      funext k
      by_cases hk : k ∈ fillDomain
      · have hkl : k ∈ l := hl.mem_iff.mpr hk
        simp [hk, hkl]
      · have hkl : k ∉ l := fun h => hk (hl.mem_iff.mp h)
        simp [hk, hkl]
    · push_neg at hok
      obtain ⟨ps, hps, hnone⟩ := hok
      have hn : pixelVal pal tbl ps = none :=
        Option.not_isSome_iff_eq_none.mp hnone
      rw [fillLoop_none pal tbl l initImg ps (hl.mem_iff.mpr hps) hn,
        fillLoop_none pal tbl fillDomain initImg ps hps hn]
  rw [key l₁ h₁, key l₂ h₂]

/-- Witness for C9: the reversed iteration order gives the same image as
the source's row-major order on the reference data. -/
theorem C9_order_invariance_witness :
    fillLoop palette_colors shadow_levels fillDomain.reverse initImg =
      fillLoop palette_colors shadow_levels fillDomain initImg :=
  C9_order_invariance palette_colors shadow_levels fillDomain.reverse
    fillDomain (List.reverse_perm fillDomain) (List.Perm.refl fillDomain)

set_option maxRecDepth 8192 in
/-- C10: every pixel of the built texture is a colour occurring in the
32-entry palette. -/
theorem C10_pixels_in_palette :
    ∃ g, buildTexture palette_colors shadow_levels = some g ∧
      ∀ (p : Fin 32) (s : Fin 8), g (p.val, s.val) ∈ palette_colors := by
  have hmemv : ∀ p ∈ List.range 32, ∀ s ∈ List.range 8,
      pval palette_colors shadow_levels (p, s) ∈ palette_colors := by decide
  refine ⟨_, build_ref_eq, ?_⟩
  intro p s
  have hmem : ((p.val, s.val) : Nat × Nat) ∈ fillDomain :=
    (mem_fillDomain _).mpr ⟨p.isLt, s.isLt⟩
  simp only [if_pos hmem]
  exact hmemv p.val (List.mem_range.mpr p.isLt) s.val
    (List.mem_range.mpr s.isLt)

/-- C2 (amended): an entry at or above 32, or below -32, makes the build
fail with the invalid-index condition (IndexError) during the build pass,
and no output file is produced. -/
theorem C2_amended_invalid_index (tbl : List (List Int)) (p : Fin 32)
    (s : Fin 8) (row : List Int) (e : Int)
    (hrow : tbl[p.val]? = some row) (he : row[s.val]? = some e)
    (hout : 32 ≤ e ∨ e < -32) :
    buildTexture palette_colors tbl = none ∧
      scriptRun palette_colors tbl = none := by
  have hpix : pixelVal palette_colors tbl (p.val, s.val) = none := by
    simp [pixelVal, hrow, he, pyGet_palette_none e hout]
  have hb : buildTexture palette_colors tbl = none :=
    fillLoop_none palette_colors tbl fillDomain initImg (p.val, s.val)
      ((mem_fillDomain _).mpr ⟨p.isLt, s.isLt⟩) hpix
  exact ⟨hb, by simp [scriptRun, hb]⟩

set_option maxRecDepth 8192 in
/-- Witness for amended C2: the reference table with the row-0, level-0
entry set to 32 makes the build fail and nothing is saved. -/
theorem C2_amended_invalid_index_witness :
    buildTexture palette_colors shadow_levels_set32 = none ∧
      scriptRun palette_colors shadow_levels_set32 = none :=
  C2_amended_invalid_index shadow_levels_set32 ⟨0, by decide⟩ ⟨0, by decide⟩
    [32, 0, 0, 0, 0, 0, 0, 0] 32 (by decide) (by decide)
    (Or.inl (by decide))

set_option maxRecDepth 8192 in
/-- C2 counterexample: with the entry at row 0, level 0 set to -1 — an
index outside [0,32) — the build does not fail: Python's negative
indexing silently wraps it to palette index 31, the build succeeds, and
the output file is written. -/
theorem C2_counterexample_neg_wraps :
    (shadow_levels_neg1.getD 0 []).getD 0 0 = -1 ∧
    (scriptRun palette_colors shadow_levels_neg1).isSome = true ∧
    ∃ g, buildTexture palette_colors shadow_levels_neg1 = some g ∧
      g (0, 0) = (0xff, 0x85, 0x6d) := by
  have hb := fillLoop_ok palette_colors shadow_levels_neg1 fillDomain
    initImg (by decide)
  refine ⟨by decide, ?_, _, hb, by decide⟩
  simp [scriptRun, buildTexture, hb]

end PaletteTexture
